import Mathlib

/-!
Verification development for the UScript compiler (`src/compiler.py`).

The Python source is shallowly embedded: every function of the compiler
(`lexer`, `parse` with its nested sub-routines, `semantic_analysis`,
`execute_ast` and friends) is translated into an executable Lean
definition of the same name, and the claims about the program are stated
and settled as theorems over these definitions.

Conventions of the embedding:
* Python strings are `String`/`List Char`; the regular expressions of
  `TOKEN_TYPES` are fixed concrete patterns, so each is translated into a
  dedicated matching function reproducing `re.match` behaviour at a
  position (greedy repetition, alternation tried left to right, `\b`
  word-boundary tests against the preceding character).  Character
  classes `\w`/`\s` are modelled at ASCII granularity.
* Python's dynamically typed values (`None`, `bool`, `str`, `tuple`,
  `list`, `Node`) are one inductive type `PyVal`; duck-typing failures
  (`.type` on a list, subscripting `None`, ...) surface as the
  corresponding Python exception kinds in `PyErr`.
* Exceptions are `Except`; `print` calls are collected as `Effect`
  values (the interpolated names are carried structurally).  Error
  message strings keep their static prefix; interpolated parts are
  omitted.
* Loops/recursion without a structural measure take a fuel parameter;
  fuel exhaustion is a distinguished outcome (`fuelOut`) that the real
  program never exhibits, and wrappers supply ample fuel.
-/

namespace UScript

/-- ASCII model of Python's `\w` character class. -/
def isWordChar (c : Char) : Bool := c.isAlphanum || c = '_'

/-- ASCII model of Python's `\s` character class. -/
def isSpaceChar (c : Char) : Bool :=
  c = ' ' || c = '\t' || c = '\n' || c = '\r' || c = '\x0b' || c = '\x0c'

/-- First character of an identifier: `[a-zA-Z_]`. -/
def isAlphaUnd (c : Char) : Bool := c.isAlpha || c = '_'

/-- Length of the longest prefix whose characters satisfy `f`
(greedy `X*` for a character class `X`). -/
def wtake (f : Char → Bool) : List Char → Nat
  | [] => 0
  | c :: cs => if f c then wtake f cs + 1 else 0

/-- Match a literal character sequence; `some` returns its length. -/
def litL : List Char → List Char → Option Nat
  | [], _ => some 0
  | _ :: _, [] => none
  | l :: ls, c :: cs => if c = l then (litL ls cs).map (· + 1) else none

/-- Match a literal string. -/
def litS (s : String) (cs : List Char) : Option Nat := litL s.toList cs

/-- Match a single literal character. -/
def litC (l : Char) : List Char → Option Nat
  | c :: _ => if c = l then some 1 else none
  | [] => none

/-- Greedy `(\.\w+)*` (used by the FOLDER pattern); each iteration
consumes at least two characters, so the input length bounds the
iteration count. -/
def dotWordStarAux : Nat → List Char → Nat
  | 0, _ => 0
  | fuel + 1, cs =>
    match cs with
    | '.' :: rest =>
      let n := wtake isWordChar rest
      if n = 0 then 0 else (1 + n) + dotWordStarAux fuel (rest.drop n)
    | _ => 0

/-- Greedy `(\.\w+)*` with ample fuel. -/
def dotWordStar (cs : List Char) : Nat := dotWordStarAux (cs.length + 1) cs

/-- Source `folder\s+(\w+(\.\w+)*)` -/
def matchFOLDER (cs : List Char) : Option Nat := do
  let n1 ← litS "folder" cs
  let n2 := wtake isSpaceChar (cs.drop n1)
  if n2 = 0 then none else
  let n3 := wtake isWordChar (cs.drop (n1 + n2))
  if n3 = 0 then none else
  some (n1 + n2 + n3 + dotWordStar (cs.drop (n1 + n2 + n3)))

/-- Source `class\s+(\w+)(\s+extends\s+\w+)?` -/
def matchCLASS (cs : List Char) : Option Nat := do
  let n1 ← litS "class" cs
  let n2 := wtake isSpaceChar (cs.drop n1)
  if n2 = 0 then none else
  let n3 := wtake isWordChar (cs.drop (n1 + n2))
  if n3 = 0 then none else
  let next := cs.drop (n1 + n2 + n3)
  let n4 := (Option.getD (do
      let a := wtake isSpaceChar next
      if a = 0 then none else
      let b ← litS "extends" (next.drop a)
      let c := wtake isSpaceChar (next.drop (a + b))
      if c = 0 then none else
      let d := wtake isWordChar (next.drop (a + b + c))
      if d = 0 then none else some (a + b + c + d)) 0)
  some (n1 + n2 + n3 + n4)

/-- Source `"` followed by `[^"]*"` — the simple string form used inside the
VARIABLE and RETURN value group. -/
def matchDquoteSimple : List Char → Option Nat
  | '"' :: cs =>
    let n := wtake (fun c => c != '"') cs
    match cs.drop n with
    | '"' :: _ => some (n + 2)
    | _ => none
  | _ => none

/-- No word character follows (the trailing `\b` of `\btrue\b` etc.; the
leading `\b` holds by context: the value group is always preceded by `=`
or whitespace). -/
def noWordAfter : List Char → Bool
  | [] => true
  | c :: _ => ! isWordChar c

/-- Source `\bWORD\b` for a concrete word, leading boundary known from context. -/
def matchBoundedWord (w : String) (cs : List Char) : Option Nat := do
  let n ← litS w cs
  if noWordAfter (cs.drop n) then some n else none

/-- Source `\b[a-zA-Z_]\w*\b` in value position (leading boundary by context). -/
def matchValueIdent : List Char → Option Nat
  | c :: cs => if isAlphaUnd c then some (1 + wtake isWordChar cs) else none
  | [] => none

/-- The value alternation `("[^"]*"|\btrue\b|\bfalse\b|\b[a-zA-Z_]\w*\b)`,
with the extra `\bnull\b` alternative of the RETURN pattern when
`withNull` is set.  Alternatives are tried left to right. -/
def matchValueAlt (withNull : Bool) (cs : List Char) : Option Nat :=
  matchDquoteSimple cs <|>
  matchBoundedWord "true" cs <|>
  matchBoundedWord "false" cs <|>
  matchValueIdent cs <|>
  (if withNull then matchBoundedWord "null" cs else none)

/-- Source `variable\s+(\w+)(->\w+)?\s*=\s*("[^"]*"|\btrue\b|\bfalse\b|\b[a-zA-Z_]\w*\b)` -/
def matchVARIABLE (cs : List Char) : Option Nat := do
  let n1 ← litS "variable" cs
  let n2 := wtake isSpaceChar (cs.drop n1)
  if n2 = 0 then none else
  let n3 := wtake isWordChar (cs.drop (n1 + n2))
  if n3 = 0 then none else
  let r3 := cs.drop (n1 + n2 + n3)
  let n4 := (Option.getD (do
      let a ← litS "->" r3
      let b := wtake isWordChar (r3.drop a)
      if b = 0 then none else some (a + b)) 0)
  let n5 := wtake isSpaceChar (r3.drop n4)
  let n6 ← litS "=" (r3.drop (n4 + n5))
  let n7 := wtake isSpaceChar (r3.drop (n4 + n5 + n6))
  let n8 ← matchValueAlt false (r3.drop (n4 + n5 + n6 + n7))
  some (n1 + n2 + n3 + n4 + n5 + n6 + n7 + n8)

/-- Source `(public\s+)?function\s+(\w+)` -/
def matchFUNCTION (cs : List Char) : Option Nat := do
  let n0 := (Option.getD (do
      let a ← litS "public" cs
      let b := wtake isSpaceChar (cs.drop a)
      if b = 0 then none else some (a + b)) 0)
  let r0 := cs.drop n0
  let n1 ← litS "function" r0
  let n2 := wtake isSpaceChar (r0.drop n1)
  if n2 = 0 then none else
  let n3 := wtake isWordChar (r0.drop (n1 + n2))
  if n3 = 0 then none else
  some (n0 + n1 + n2 + n3)

/-- Source `return\s+("[^"]*"|\btrue\b|\bfalse\b|\b[a-zA-Z_]\w*\b|\bnull\b)` -/
def matchRETURN (cs : List Char) : Option Nat := do
  let n1 ← litS "return" cs
  let n2 := wtake isSpaceChar (cs.drop n1)
  if n2 = 0 then none else
  let n3 ← matchValueAlt true (cs.drop (n1 + n2))
  some (n1 + n2 + n3)

/-- Source `but if|otherwise` -/
def matchELSE (cs : List Char) : Option Nat :=
  litS "but if" cs <|> litS "otherwise" cs

/-- Source `import\s+([\w.]+)` -/
def matchIMPORT (cs : List Char) : Option Nat := do
  let n1 ← litS "import" cs
  let n2 := wtake isSpaceChar (cs.drop n1)
  if n2 = 0 then none else
  let n3 := wtake (fun c => isWordChar c || c = '.') (cs.drop (n1 + n2))
  if n3 = 0 then none else
  some (n1 + n2 + n3)

/-- Source `\b[a-zA-Z_]\w*\b`; the leading `\b` is checked against the character
preceding the scan position, the trailing `\b` holds after a maximal
`\w*` run. -/
def matchIDENTIFIER (prev : Option Char) : List Char → Option Nat
  | c :: cs =>
    if isAlphaUnd c && (match prev with | none => true | some q => ! isWordChar q)
    then some (1 + wtake isWordChar cs) else none
  | [] => none

/-- Body of `"(?:[^"\\]|\\.)*"` after the opening quote; returns the
count of consumed characters including the closing quote.  `\\.` does not
cross a newline (`.` excludes `\n`). -/
def strGo : List Char → Option Nat
  | [] => none
  | '"' :: _ => some 1
  | '\\' :: c :: cs => if c = '\n' then none else (strGo cs).map (· + 2)
  | ['\\'] => none
  | _ :: cs => (strGo cs).map (· + 1)

/-- Source `"(?:[^"\\]|\\.)*"` -/
def matchSTRING : List Char → Option Nat
  | '"' :: cs => (strGo cs).map (· + 1)
  | _ => none

/-- Lazy scan for the closing `*/` of a block comment, inclusive. -/
def commentClose : List Char → Option Nat
  | '*' :: '/' :: _ => some 2
  | _ :: cs => (commentClose cs).map (· + 1)
  | [] => none

/-- Source `//.*|/\*[\s\S]*?\*/` -/
def matchCOMMENT : List Char → Option Nat
  | '/' :: '/' :: rest => some (2 + wtake (fun c => c != '\n') rest)
  | '/' :: '*' :: rest => (commentClose rest).map (· + 2)
  | _ => none

/-- Source `true|false` (no word boundaries in the BOOLEAN pattern). -/
def matchBOOLEAN (cs : List Char) : Option Nat :=
  litS "true" cs <|> litS "false" cs

/-- The `TOKEN_TYPES` list in its exact source order.  The IDENTIFIER
pattern's `\b` needs the character before the scan position, so the list
is parametrised by it. -/
def TOKEN_TYPES (prev : Option Char) : List (String × (List Char → Option Nat)) :=
  [("FOLDER", matchFOLDER),
   ("CLASS", matchCLASS),
   ("VARIABLE", matchVARIABLE),
   ("FUNCTION", matchFUNCTION),
   ("RETURN", matchRETURN),
   ("IF", litS "if"),
   ("NOT", litS "not"),
   ("ELSE", matchELSE),
   ("IMPORT", matchIMPORT),
   ("IDENTIFIER", matchIDENTIFIER prev),
   ("STRING", matchSTRING),
   ("COMMENT", matchCOMMENT),
   ("LPAREN", litC '('),
   ("RPAREN", litC ')'),
   ("LBRACE", litC '{'),
   ("RBRACE", litC '}'),
   ("SEMICOLON", litC ';'),
   ("DOT", litC '.'),
   ("YEET", litS "yeet"),
   ("ARROW", litS "->"),
   ("BOOLEAN", matchBOOLEAN),
   ("NULL", litS "null")]

/-- The pattern loop body of `lexer`: try each pattern in list order, the
first that matches wins. -/
def firstMatchIn (cs : List Char) : List (String × (List Char → Option Nat)) →
    Option (String × Nat)
  | [] => none
  | (ty, m) :: rest =>
    match m cs with
    | some n => some (ty, n)
    | none => firstMatchIn cs rest

/-- First matching pattern of `TOKEN_TYPES` at the current position. -/
def firstMatch (prev : Option Char) (cs : List Char) : Option (String × Nat) :=
  firstMatchIn cs (TOKEN_TYPES prev)

/-- A token is the pair `(token_type, matched text)`. -/
abbrev Token := String × String

/-- The keyword promotion set. -/
def KEYWORDS : List String :=
  ["if", "not", "but", "otherwise", "yeet", "import", "extends", "return"]

/-- Lexer failure: unrecognized input at a position, or (model-only) fuel
exhaustion, which the wrapper's fuel bound makes unreachable. -/
inductive LexErr where
  | unrecognized (pos : Nat)
  | fuelOut
deriving DecidableEq

/-- Character before the scan position, for `\b` tests. -/
def prevChar (input : List Char) (p : Nat) : Option Char :=
  if p = 0 then none else input.get? (p - 1)

/-- The scan loop of `lexer`: at each position try the patterns in
priority order, promote a keyword identifier, drop COMMENT matches,
advance past the match. -/
def lexerAux (input : List Char) : Nat → Nat → Except LexErr (List Token)
  | 0, _ => .error .fuelOut
  | fuel + 1, p =>
    if p < input.length then
      match firstMatch (prevChar input p) (input.drop p) with
      | none => .error (.unrecognized p)
      | some (ty, n) =>
        let value : String := String.mk ((input.drop p).take n)
        let ty1 := if ty = "IDENTIFIER" ∧ value ∈ KEYWORDS then value.toUpper else ty
        match lexerAux input fuel (p + n) with
        | .error e => .error e
        | .ok toks => .ok (if ty1 = "COMMENT" then toks else (ty1, value) :: toks)
    else .ok []

/-- Source `lexer(input_text)`: every successful pattern match consumes at least
one character, so `length + 1` steps of fuel always suffice. -/
def lexer (input : List Char) : Except LexErr (List Token) :=
  lexerAux input (input.length + 1) 0

/-- Convenience wrapper taking the source text as a string. -/
def lexS (s : String) : Except LexErr (List Token) := lexer s.toList

/-! ## Python values and the `Node` class

`Node(type, children, value, access_modifier)` plus the ordinary Python
values the compiler stores in those fields.  `children` is always a
Python list; for `IF` nodes the parser places the *body list itself* as
the second child, so list values must be able to appear wherever a node
can — hence one dynamic type.  `PyVals` is a Python list/tuple payload
(a mutual fixpoint instead of a nested `List` so that equality and
recursion behave well). -/

mutual
inductive PyVal : Type where
  | pynone : PyVal
  | pybool (b : Bool) : PyVal
  | pystr (s : String) : PyVal
  | pytuple (xs : PyVals) : PyVal
  | pylist (xs : PyVals) : PyVal
  | node (ty : String) (children : PyVals) (value : PyVal) (access : PyVal) : PyVal
deriving DecidableEq
inductive PyVals : Type where
  | nil : PyVals
  | cons (hd : PyVal) (tl : PyVals) : PyVals
deriving DecidableEq
end

def PyVals.get? : PyVals → Nat → Option PyVal
  | .nil, _ => none
  | .cons a _, 0 => some a
  | .cons _ l, n + 1 => l.get? n

def PyVals.length : PyVals → Nat
  | .nil => 0
  | .cons _ l => l.length + 1

/-- Python exceptions as the compiler can raise them: explicit
`raise Exception(...)` (whose message we keep up to its static prefix),
and the implicit `TypeError` / `AttributeError` / `IndexError` of
duck-typing slips.  `fuelOut` is the model-only fuel-exhaustion outcome. -/
inductive PyErr where
  | exc (msg : String)
  | typeError
  | attributeError
  | indexError
  | fuelOut
deriving DecidableEq

/-- Source `x[i]` for `i ≥ 0`: tuples, lists and strings are subscriptable,
everything else raises `TypeError`. -/
def pySubscript : PyVal → Nat → Except PyErr PyVal
  | .pytuple xs, n => match xs.get? n with | some v => .ok v | none => .error .indexError
  | .pylist xs, n => match xs.get? n with | some v => .ok v | none => .error .indexError
  | .pystr s, n =>
    match s.toList.get? n with
    | some c => .ok (.pystr (String.mk [c]))
    | none => .error .indexError
  | _, _ => .error .typeError

/-- Source `x.value`: only `Node` objects have it. -/
def pyValueAttr : PyVal → Except PyErr PyVal
  | .node _ _ v _ => .ok v
  | _ => .error .attributeError

/-! ## Parser

`parse(tokens)` with its nested sub-routines.  The mutable nonlocal
`index` becomes an explicit cursor: each sub-routine takes the token list
and the cursor, and returns its result with the new cursor.  `peek()`
past the end is `None`; subscripting that `None` (which several
sub-routines do without a guard) is a `TypeError`.  The recursive
sub-routines take fuel; the `parse` wrapper supplies enough for any
input. -/

/-- Source `consume(token_type)`. -/
def consume (toks : List Token) (i : Nat) (ty : String) : Except PyErr (Token × Nat) :=
  match toks.get? i with
  | some t =>
    if t.1 = ty then .ok (t, i + 1)
    else .error (.exc ("Parser error: Expected " ++ ty))
  | none => .error (.exc ("Parser error: Expected " ++ ty))

/-- Source `parse_identifier()`. -/
def parse_identifier (toks : List Token) (i : Nat) : Except PyErr (PyVal × Nat) := do
  let (t, i1) ← consume toks i "IDENTIFIER"
  pure (.node "IDENTIFIER" .nil (.pystr t.2) .pynone, i1)

/-- Source `parse_string()`. -/
def parse_string (toks : List Token) (i : Nat) : Except PyErr (PyVal × Nat) := do
  let (t, i1) ← consume toks i "STRING"
  pure (.node "STRING" .nil (.pystr t.2) .pynone, i1)

/-- Source `parse_boolean()`. -/
def parse_boolean (toks : List Token) (i : Nat) : Except PyErr (PyVal × Nat) := do
  let (t, i1) ← consume toks i "BOOLEAN"
  pure (.node "BOOLEAN" .nil (.pystr t.2) .pynone, i1)

/-- Source `parse_expression()`: identifier, string or boolean literal. -/
def parse_expression (toks : List Token) (i : Nat) : Except PyErr (PyVal × Nat) :=
  match toks.get? i with
  | none => .error .typeError
  | some (ty, _) =>
    if ty = "IDENTIFIER" then parse_identifier toks i
    else if ty = "STRING" then parse_string toks i
    else if ty = "BOOLEAN" then parse_boolean toks i
    else .error (.exc "Parser error: Unexpected token")

/-- Source `parse_value()`: note that the BOOLEAN branch returns without
consuming its token, exactly as in the source. -/
def parse_value (toks : List Token) (i : Nat) : Except PyErr (PyVal × Nat) :=
  match toks.get? i with
  | none => .error .typeError
  | some (ty, v) =>
    if ty = "STRING" then do
      let (t, i1) ← consume toks i "STRING"
      pure (.pystr t.2, i1)
    else if ty = "BOOLEAN" then
      pure (.pybool (v = "true"), i)
    else if ty = "IDENTIFIER" then do
      let (t, i1) ← consume toks i "IDENTIFIER"
      pure (.pystr t.2, i1)
    else if ty = "NULL" then do
      let (_, i1) ← consume toks i "NULL"
      pure (.pynone, i1)
    else .error (.exc "Parser error: Unexpected value")

/-- Source `parse_yeet()`. -/
def parse_yeet (toks : List Token) (i : Nat) : Except PyErr (PyVal × Nat) := do
  let (_, i1) ← consume toks i "YEET"
  let (t, i2) ← consume toks i1 "STRING"
  let (_, i3) ← consume toks i2 "SEMICOLON"
  pure (.node "YEET" .nil (.pystr t.2) .pynone, i3)

/-- Source `parse_return()`: the value field holds the expression node. -/
def parse_return (toks : List Token) (i : Nat) : Except PyErr (PyVal × Nat) := do
  let (_, i1) ← consume toks i "RETURN"
  let (v, i2) ← parse_expression toks i1
  let (_, i3) ← consume toks i2 "SEMICOLON"
  pure (.node "RETURN" .nil v .pynone, i3)

/-- Source `parse_assignment()`: value is the tuple `(variable, value node)`. -/
def parse_assignment (toks : List Token) (i : Nat) : Except PyErr (PyVal × Nat) := do
  let (t, i1) ← consume toks i "IDENTIFIER"
  let (_, i2) ← consume toks i1 "EQUALS"
  let (v, i3) ← parse_expression toks i2
  let (_, i4) ← consume toks i3 "SEMICOLON"
  pure (.node "ASSIGNMENT" .nil (.pytuple (.cons (.pystr t.2) (.cons v .nil))) .pynone, i4)

/-- The `while peek() and peek()[0] == 'DOT'` loop of `parse_import`. -/
def parse_import_dots (toks : List Token) : Nat → Nat → String → Except PyErr (String × Nat)
  | 0, _, _ => .error .fuelOut
  | fuel + 1, i, acc =>
    match toks.get? i with
    | some ("DOT", _) => do
      let (_, i1) ← consume toks i "DOT"
      let (t, i2) ← consume toks i1 "IDENTIFIER"
      parse_import_dots toks fuel i2 (acc ++ "." ++ t.2)
    | _ => .ok (acc, i)

/-- Source `parse_import()`. -/
def parse_import (toks : List Token) (i : Nat) : Except PyErr (PyVal × Nat) := do
  let (_, i1) ← consume toks i "IMPORT"
  let (t, i2) ← consume toks i1 "IDENTIFIER"
  let (name, i3) ← parse_import_dots toks (toks.length + 1) i2 t.2
  let (_, i4) ← consume toks i3 "SEMICOLON"
  pure (.node "IMPORT" .nil (.pystr name) .pynone, i4)

/-- The `while peek() and peek()[0] != 'RPAREN'` loop of
`parse_parameters`; the inner `peek()[0] == 'COMMA'` test is unguarded,
so running out of tokens right after a parameter is a `TypeError`. -/
def parse_parameters (toks : List Token) : Nat → Nat → Except PyErr (PyVals × Nat)
  | 0, _ => .error .fuelOut
  | fuel + 1, i =>
    match toks.get? i with
    | none => .ok (.nil, i)
    | some (ty, _) =>
      if ty = "RPAREN" then .ok (.nil, i)
      else do
        let (t, i1) ← consume toks i "IDENTIFIER"
        let i2 ← (match toks.get? i1 with
          | none => .error .typeError
          | some (ty2, _) =>
            if ty2 = "COMMA" then do
              let (_, j) ← consume toks i1 "COMMA"
              pure j
            else pure i1 : Except PyErr Nat)
        let (ps, i3) ← parse_parameters toks fuel i2
        pure (.cons (.pystr t.2) ps, i3)

/-- The argument loop of `parse_function_call` (comma-separated
expressions until `RPAREN`; the `peek()[0] == 'COMMA'` test is
unguarded). -/
def parse_call_arguments (toks : List Token) : Nat → Nat → Except PyErr (PyVals × Nat)
  | 0, _ => .error .fuelOut
  | fuel + 1, i =>
    match toks.get? i with
    | none => .ok (.nil, i)
    | some (ty, _) =>
      if ty = "RPAREN" then .ok (.nil, i)
      else do
        let (arg, i1) ← parse_expression toks i
        let i2 ← (match toks.get? i1 with
          | none => .error .typeError
          | some (ty2, _) =>
            if ty2 = "COMMA" then do
              let (_, j) ← consume toks i1 "COMMA"
              pure j
            else pure i1 : Except PyErr Nat)
        let (args, i3) ← parse_call_arguments toks fuel i2
        pure (.cons arg args, i3)

/-- Source `parse_function_call()`. -/
def parse_function_call (toks : List Token) (i : Nat) : Except PyErr (PyVal × Nat) := do
  let (idt, i1) ← consume toks i "IDENTIFIER"
  let (_, i2) ← consume toks i1 "LPAREN"
  let (args, i3) ← parse_call_arguments toks (toks.length + 1) i2
  let (_, i4) ← consume toks i3 "RPAREN"
  let (_, i5) ← consume toks i4 "SEMICOLON"
  pure (.node "FUNCTION_CALL" args (.pystr idt.2) .pynone, i5)

/-- Source `parse_variable()`: value is the triple `(name, arrow, value)`; the
`peek()[0] == 'ARROW'` test is unguarded. -/
def parse_variable (toks : List Token) (i : Nat) : Except PyErr (PyVal × Nat) := do
  let (_, i1) ← consume toks i "VARIABLE"
  let (t, i2) ← consume toks i1 "IDENTIFIER"
  let (arrow, i3) ← (match toks.get? i2 with
    | none => .error .typeError
    | some (ty2, _) =>
      if ty2 = "ARROW" then do
        let (_, j1) ← consume toks i2 "ARROW"
        let (a, j2) ← consume toks j1 "IDENTIFIER"
        pure (PyVal.pystr a.2, j2)
      else pure (PyVal.pynone, i2) : Except PyErr (PyVal × Nat))
  let (_, i4) ← consume toks i3 "EQUALS"
  let (v, i5) ← parse_value toks i4
  let (_, i6) ← consume toks i5 "SEMICOLON"
  pure (.node "VARIABLE" .nil
    (.pytuple (.cons (.pystr t.2) (.cons arrow (.cons v .nil)))) .pynone, i6)

mutual

/-- Source `parse_class()`: the `extends` name is parsed but not stored. -/
def parse_class (toks : List Token) : Nat → Nat → Except PyErr (PyVal × Nat)
  | 0, _ => .error .fuelOut
  | fuel + 1, i => do
    let (_, i1) ← consume toks i "CLASS"
    let (t, i2) ← consume toks i1 "IDENTIFIER"
    let i3 ← (match toks.get? i2 with
      | some ("EXTENDS", _) => do
        let (_, j1) ← consume toks i2 "EXTENDS"
        let (_, j2) ← consume toks j1 "IDENTIFIER"
        pure j2
      | _ => pure i2 : Except PyErr Nat)
    let (body, i4) ← parse_body toks fuel i3
    pure (.node "CLASS" body (.pystr t.2) .pynone, i4)

/-- Source `parse_function()`: the `peek()[0] == 'PUBLIC'` test is unguarded. -/
def parse_function (toks : List Token) : Nat → Nat → Except PyErr (PyVal × Nat)
  | 0, _ => .error .fuelOut
  | fuel + 1, i => do
    let (isPub, i0) ← (match toks.get? i with
      | none => .error .typeError
      | some (ty, _) =>
        if ty = "PUBLIC" then do
          let (_, j) ← consume toks i "PUBLIC"
          pure (true, j)
        else pure (false, i) : Except PyErr (Bool × Nat))
    let (_, i1) ← consume toks i0 "FUNCTION"
    let (t, i2) ← consume toks i1 "IDENTIFIER"
    let (_, i3) ← consume toks i2 "LPAREN"
    let (params, i4) ← parse_parameters toks (toks.length + 1) i3
    let (_, i5) ← consume toks i4 "RPAREN"
    let (body, i6) ← parse_body toks fuel i5
    pure (.node "FUNCTION" body
      (.pytuple (.cons (.pystr t.2) (.cons (.pylist params) .nil)))
      (if isPub then .pystr "public" else .pynone), i6)

/-- Source `parse_if()`: children are `[condition, body]` — the body *list*
itself is the second child. -/
def parse_if (toks : List Token) : Nat → Nat → Except PyErr (PyVal × Nat)
  | 0, _ => .error .fuelOut
  | fuel + 1, i => do
    let (_, i1) ← consume toks i "IF"
    let (cond, i2) ← parse_expression toks i1
    let (body, i3) ← parse_body toks fuel i2
    pure (.node "IF" (.cons cond (.cons (.pylist body) .nil)) .pynone .pynone, i3)
termination_by structural fuel => fuel

/-- Source `parse_body()`. -/
def parse_body (toks : List Token) : Nat → Nat → Except PyErr (PyVals × Nat)
  | 0, _ => .error .fuelOut
  | fuel + 1, i => do
    let (_, i1) ← consume toks i "LBRACE"
    let (stmts, i2) ← parse_body_statements toks fuel i1
    let (_, i3) ← consume toks i2 "RBRACE"
    pure (stmts, i3)
termination_by structural fuel => fuel

/-- The statement loop of `parse_body`. -/
def parse_body_statements (toks : List Token) : Nat → Nat → Except PyErr (PyVals × Nat)
  | 0, _ => .error .fuelOut
  | fuel + 1, i =>
    match toks.get? i with
    | none => .ok (.nil, i)
    | some (ty, _) =>
      if ty = "RBRACE" then .ok (.nil, i)
      else do
        let (s, i1) ← parse_statement toks fuel i
        let (rest, i2) ← parse_body_statements toks fuel i1
        pure (.cons s rest, i2)
termination_by structural fuel => fuel

/-- Source `parse_statement()`: dispatch on the first token; a statement
starting with IDENTIFIER is a function call exactly when the next token
is LPAREN, otherwise an assignment. -/
def parse_statement (toks : List Token) : Nat → Nat → Except PyErr (PyVal × Nat)
  | 0, _ => .error .fuelOut
  | fuel + 1, i =>
    match toks.get? i with
    | none => .error .typeError
    | some (ty, _) =>
      if ty = "IF" then parse_if toks fuel i
      else if ty = "IDENTIFIER" then
        match toks.get? (i + 1) with
        | some ("LPAREN", _) => parse_function_call toks i
        | _ => parse_assignment toks i
      else if ty = "YEET" then parse_yeet toks i
      else if ty = "IMPORT" then parse_import toks i
      else if ty = "RETURN" then parse_return toks i
      else .error (.exc "Parser error: Unexpected token")
termination_by structural fuel => fuel

/-- The top-level `while peek()` loop of `parse`: FOLDER tokens are
consumed without emitting a node, COMMENT tokens are skipped. -/
def parse_top (toks : List Token) : Nat → Nat → Except PyErr PyVals
  | 0, _ => .error .fuelOut
  | fuel + 1, i =>
    match toks.get? i with
    | none => .ok .nil
    | some (ty, _) =>
      if ty = "FOLDER" then do
        let (_, i1) ← consume toks i "FOLDER"
        parse_top toks fuel i1
      else if ty = "CLASS" then do
        let (n, i1) ← parse_class toks fuel i
        let rest ← parse_top toks fuel i1
        pure (.cons n rest)
      else if ty = "VARIABLE" then do
        let (n, i1) ← parse_variable toks i
        let rest ← parse_top toks fuel i1
        pure (.cons n rest)
      else if ty = "FUNCTION" then do
        let (n, i1) ← parse_function toks fuel i
        let rest ← parse_top toks fuel i1
        pure (.cons n rest)
      else if ty = "IF" then do
        let (n, i1) ← parse_if toks fuel i
        let rest ← parse_top toks fuel i1
        pure (.cons n rest)
      else if ty = "RETURN" then do
        let (n, i1) ← parse_return toks i
        let rest ← parse_top toks fuel i1
        pure (.cons n rest)
      else if ty = "COMMENT" then
        parse_top toks fuel (i + 1)
      else if ty = "IMPORT" then do
        let (n, i1) ← parse_import toks i
        let rest ← parse_top toks fuel i1
        pure (.cons n rest)
      else .error (.exc "Parser error: Unexpected token")
termination_by structural fuel => fuel

end

/-- Source `parse(tokens)`: the fuel bound is generous — the cursor advances at
every fuel-consuming step, so call depth is linear in the token count. -/
def parse (toks : List Token) : Except PyErr PyVals :=
  parse_top toks (4 * toks.length + 16) 0

/-! ## Semantic analysis

`semantic_analysis(ast)`: the closure-mutated `symbol_table` dict
becomes explicit state threading; dict keys are the `PyVal`s the code
uses as keys (names in practice). -/

/-- The symbol table: key to declaring node, unique keys. -/
abbrev SymTable := List (PyVal × PyVal)

/-- Source `key in symbol_table`. -/
def tableMem (k : PyVal) (st : SymTable) : Bool :=
  st.any (fun e => decide (e.1 = k))

mutual

/-- Source `analyze_node(node)`.  Non-`Node` arguments raise `AttributeError`
at the `node.type` access (this is what happens for the body list of an
`IF` node). -/
def analyze_node : Nat → SymTable → PyVal → Except PyErr SymTable
  | 0, _, _ => .error .fuelOut
  | fuel + 1, st, x =>
    match x with
    | .node ty children value _ =>
      if ty = "CLASS" then
        if tableMem value st then .error (.exc "Semantic error: Class already declared")
        else .ok (st ++ [(value, x)])
      else if ty = "VARIABLE" then
        match pySubscript value 0 with
        | .error e => .error e
        | .ok nm =>
          if tableMem nm st then .error (.exc "Semantic error: Variable already declared")
          else .ok (st ++ [(nm, x)])
      else if ty = "FUNCTION" then
        match pySubscript value 0 with
        | .error e => .error e
        | .ok nm =>
          if tableMem nm st then .error (.exc "Semantic error: Function already declared")
          else .ok (st ++ [(nm, x)])
      else if ty = "IF" then
        match children.get? 0 with
        | none => .error .indexError
        | some cond =>
          match analyze_node fuel st cond with
          | .error e => .error e
          | .ok st1 =>
            match children.get? 1 with
            | none => .error .indexError
            | some body => analyze_node fuel st1 body
      else if ty = "RETURN" then analyze_node fuel st value
      else if ty = "FUNCTION_CALL" then
        if tableMem value st then analyze_seq fuel st children
        else .error (.exc "Semantic error: Function not declared")
      else .ok st
    | _ => .error .attributeError
termination_by structural fuel _ _ => fuel

/-- A `for n in ...: analyze_node(n)` loop (used for the arguments of a
call and for the top-level node list; like every loop in the model it
spends one unit of fuel per step). -/
def analyze_seq : Nat → SymTable → PyVals → Except PyErr SymTable
  | _, st, .nil => .ok st
  | 0, _, .cons _ _ => .error .fuelOut
  | fuel + 1, st, .cons a rest =>
    match analyze_node fuel st a with
    | .error e => .error e
    | .ok st1 => analyze_seq fuel st1 rest
termination_by structural fuel _ _ => fuel

end

mutual
/-- Structural size of a dynamic value, used as an executable fuel
bound for the AST walks. -/
def PyVal.pysize : PyVal → Nat
  | .pynone => 1
  | .pybool _ => 1
  | .pystr _ => 1
  | .pytuple xs => xs.pysize + 1
  | .pylist xs => xs.pysize + 1
  | .node _ children value access => children.pysize + value.pysize + access.pysize + 1
termination_by structural x => x
def PyVals.pysize : PyVals → Nat
  | .nil => 1
  | .cons a l => a.pysize + l.pysize + 1
termination_by structural x => x
end

/-- Source `semantic_analysis(ast)`: fresh table, one pass over the top-level
nodes.  Each fuel-consuming descent moves to a structurally smaller
value, so the structural size is an ample fuel bound. -/
def semantic_analysis (ast : PyVals) : Except PyErr SymTable :=
  analyze_seq (ast.pysize + 1) [] ast

/-! ## Evaluator

`execute_ast` and friends: each `print` becomes an `Effect` carrying the
interpolated values structurally; an uncaught exception stops the walk,
with the effects already emitted kept. -/

/-- One observable output line. -/
inductive Effect where
  | declaringClass (v : PyVal)
  | declaringVariable (name tyAnn : PyVal)
  | declaringFunction (pub : Bool) (name : PyVal)
  | conditionNotMet
  | returning (v : PyVal)
  | errorEffect (v : PyVal)
  | saying (v : PyVal)
deriving DecidableEq

/-- Source `execute_function_call(call_node)`: only the built-in `say` does
anything; any other callee is silently skipped. -/
def execute_function_call (callNode : PyVal) : List Effect × Option PyErr :=
  match callNode with
  | .node _ children value _ =>
    if value = .pystr "say" then
      if children.length ≠ 1 then
        ([], some (.exc "Error: say function requires exactly one argument"))
      else
        match children.get? 0 with
        | some arg =>
          match pyValueAttr arg with
          | .ok msg => ([Effect.saying msg], none)
          | .error e => ([], some e)
        | none => ([], some .indexError)
    else ([], none)
  | _ => ([], some .attributeError)

/-- Source `execute_return_statement(return_node)`. -/
def execute_return_statement (returnNode : PyVal) : List Effect × Option PyErr :=
  match returnNode with
  | .node _ _ value _ => ([Effect.returning value], none)
  | _ => ([], some .attributeError)

mutual

/-- Source `execute_ast(ast)`: walk the node list in order; an exception in one
node stops the walk (each loop step spends one unit of fuel). -/
def execute_ast : Nat → PyVals → List Effect × Option PyErr
  | _, .nil => ([], none)
  | 0, .cons _ _ => ([], some .fuelOut)
  | fuel + 1, .cons x rest =>
    match execute_node fuel x with
    | (effs, some e) => (effs, some e)
    | (effs, none) =>
      let (effs2, err) := execute_ast fuel rest
      (effs ++ effs2, err)
termination_by structural fuel _ => fuel

/-- The dispatch body of `execute_ast`'s loop: one iteration, for one
element of the list (`node.type` on a non-`Node` element raises
`AttributeError`; node types without a branch are ignored). -/
def execute_node : Nat → PyVal → List Effect × Option PyErr
  | 0, _ => ([], some .fuelOut)
  | fuel + 1, x =>
    match x with
    | .node ty _ value access =>
      if ty = "CLASS" then ([Effect.declaringClass value], none)
      else if ty = "VARIABLE" then
        match pySubscript value 0 with
        | .error e => ([], some e)
        | .ok v0 =>
          match pySubscript value 1 with
          | .error e => ([], some e)
          | .ok v1 => ([Effect.declaringVariable v0 v1], none)
      else if ty = "FUNCTION" then
        match pySubscript value 0 with
        | .error e => ([], some e)
        | .ok v0 => ([Effect.declaringFunction (access = .pystr "public") v0], none)
      else if ty = "IF" then execute_if_statement fuel x
      else if ty = "RETURN" then execute_return_statement x
      else if ty = "YEET" then ([Effect.errorEffect value], none)
      else if ty = "FUNCTION_CALL" then execute_function_call x
      else ([], none)
    | _ => ([], some .attributeError)
termination_by structural fuel _ => fuel

/-- Source `execute_if_statement(if_node)`: take `children[0]` and
`children[1]`, compare the condition's `.value` to the string `'true'`,
and on success iterate the body (a list when the parser built it; other
values behave as Python iteration would). -/
def execute_if_statement : Nat → PyVal → List Effect × Option PyErr
  | 0, _ => ([], some .fuelOut)
  | fuel + 1, ifNode =>
    match ifNode with
    | .node _ children _ _ =>
      match children.get? 0 with
      | none => ([], some .indexError)
      | some cond =>
        match children.get? 1 with
        | none => ([], some .indexError)
        | some body =>
          match pyValueAttr cond with
          | .error e => ([], some e)
          | .ok cv =>
            if cv = .pystr "true" then
              match body with
              | .pylist xs => execute_ast fuel xs
              | .pytuple xs => execute_ast fuel xs
              | .pystr s => if s = "" then ([], none) else ([], some .attributeError)
              | _ => ([], some .typeError)
            else ([Effect.conditionNotMet], none)
    | _ => ([], some .attributeError)
termination_by structural fuel _ => fuel

end

/-- Run `execute_ast` on a parsed AST with ample fuel (fuel is consumed
only when entering an `if` body, which is structurally smaller). -/
def run_ast (ast : PyVals) : List Effect × Option PyErr :=
  execute_ast (ast.pysize + 1) ast

/-- True when the token after position `i` is an LPAREN (the one-token
lookahead of `parse_statement`). -/
def nextIsLParen (toks : List Token) (i : Nat) : Bool :=
  match toks.get? (i + 1) with
  | some t => t.1 = "LPAREN"
  | none => false

/-! ## General lemmas -/

theorem except_bind_eq_ok {ε α β : Type} {x : Except ε α} {f : α → Except ε β} {b : β}
    (h : x >>= f = .ok b) : ∃ a, x = .ok a ∧ f a = .ok b := by
  cases x with
  | error e => simp [Bind.bind, Except.bind] at h
  | ok a => exact ⟨a, rfl, h⟩

theorem except_map_eq_ok {ε α β : Type} {x : Except ε α} {f : α → β} {b : β}
    (h : f <$> x = .ok b) : ∃ a, x = .ok a ∧ b = f a := by
  cases x with
  | error e => simp [Functor.map, Except.map] at h
  | ok a =>
    refine ⟨a, rfl, ?_⟩
    have h' : (Except.ok (f a) : Except ε β) = .ok b := h
    simpa using h'.symm

theorem litL_head {l : Char} {ls cs : List Char} {n : Nat}
    (h : litL (l :: ls) cs = some n) : ∃ cs', cs = l :: cs' := by
  cases cs with
  | nil => simp [litL] at h
  | cons c cs' =>
    simp only [litL] at h
    split at h
    · rename_i hcl
      exact ⟨cs', by rw [hcl]⟩
    · simp at h

/-- At a whitespace character no pattern of `TOKEN_TYPES` matches. -/
theorem firstMatch_space {c : Char} (prev : Option Char) (rest : List Char)
    (h : isSpaceChar c = true) : firstMatch prev (c :: rest) = none := by
  simp only [isSpaceChar, Bool.or_eq_true, decide_eq_true_eq] at h
  rcases h with ((((rfl | rfl) | rfl) | rfl) | rfl) | rfl <;> rfl

/-- When the preceding character is a word boundary and the head is a
letter or underscore, the IDENTIFIER pattern matches. -/
theorem matchIDENTIFIER_alpha {prev : Option Char} {c : Char} (cs : List Char)
    (hbnd : ∀ q, prev = some q → isWordChar q = false) (hc : isAlphaUnd c = true) :
    matchIDENTIFIER prev (c :: cs) = some (1 + wtake isWordChar cs) := by
  cases prev with
  | none => simp [matchIDENTIFIER, hc]
  | some q => simp [matchIDENTIFIER, hc, hbnd q rfl]

/-- A successful first match comes from some pattern of the list. -/
theorem firstMatchIn_found {cs : List Char} {ty : String} {n : Nat} :
    ∀ {l : List (String × (List Char → Option Nat))},
      firstMatchIn cs l = some (ty, n) → ∃ m, (ty, m) ∈ l ∧ m cs = some n := by
  intro l
  induction l with
  | nil =>
    intro h
    simp [firstMatchIn] at h
  | cons e rest ih =>
    intro h
    rw [firstMatchIn] at h
    split at h
    · rename_i k hk
      obtain ⟨rfl, rfl⟩ : e.1 = ty ∧ k = n := by simpa using h
      exact ⟨e.2, by simp, hk⟩
    · obtain ⟨m, hm, hcs⟩ := ih h
      exact ⟨m, List.mem_cons_of_mem _ hm, hcs⟩

/-- Priority: if a pattern in the middle of the list matches, the chain
never reports a pattern listed after it. -/
theorem firstMatchIn_stops {cs : List Char} {ty ty0 : String} {n : Nat}
    {m0 : List Char → Option Nat} (h0 : (m0 cs).isSome = true) :
    ∀ {l1 l2 : List (String × (List Char → Option Nat))},
      firstMatchIn cs (l1 ++ (ty0, m0) :: l2) = some (ty, n) →
      ty ∈ l1.map Prod.fst ∨ ty = ty0 := by
  intro l1
  induction l1 with
  | nil =>
    intro l2 h
    rw [List.nil_append, firstMatchIn] at h
    split at h
    · rename_i k hk
      obtain ⟨rfl, rfl⟩ : ty0 = ty ∧ k = n := by simpa using h
      exact Or.inr rfl
    · rename_i hk
      rw [hk] at h0
      simp at h0
  | cons e rest ih =>
    intro l2 h
    rw [List.cons_append, firstMatchIn] at h
    split at h
    · rename_i k hk
      obtain ⟨rfl, rfl⟩ : e.1 = ty ∧ k = n := by simpa using h
      exact Or.inl (by simp)
    · rcases ih h with hl | hr
      · exact Or.inl (List.mem_cons_of_mem _ hl)
      · exact Or.inr hr

/-- A BOOLEAN match means the text starts with `t` or `f` — in any case
with an identifier-start character. -/
theorem matchBOOLEAN_head {cs : List Char} {n : Nat} (h : matchBOOLEAN cs = some n) :
    ∃ c cs', cs = c :: cs' ∧ isAlphaUnd c = true := by
  rw [matchBOOLEAN] at h
  cases ht : litS "true" cs with
  | some m =>
    obtain ⟨cs', rfl⟩ := litL_head (n := m) ht
    exact ⟨'t', cs', rfl, by decide⟩
  | none =>
    rw [ht, Option.none_orElse] at h
    obtain ⟨cs', rfl⟩ := litL_head (n := n) h
    exact ⟨'f', cs', rfl, by decide⟩

/-- Tokens of the scan loop are never COMMENT tokens. -/
theorem lexerAux_no_comment (input : List Char) :
    ∀ (fuel p : Nat) (toks : List Token), lexerAux input fuel p = .ok toks →
      ∀ t ∈ toks, t.1 ≠ "COMMENT" := by
  intro fuel
  induction fuel with
  | zero =>
    intro p toks h
    simp [lexerAux] at h
  | succ fuel ih =>
    intro p toks h
    rw [lexerAux] at h
    split at h
    · split at h
      · exact absurd h (by simp)
      · rename_i pr hfm
        split at h
        · exact absurd h (by simp)
        · rename_i toks' hrec
          obtain rfl : _ = toks := by simpa using h
          intro t ht
          split at ht <;>
            [skip; skip] <;>
          · split at ht
            · exact ih _ _ hrec t ht
            · rename_i hne
              rcases List.mem_cons.mp ht with rfl | hmem
              · exact hne
              · exact ih _ _ hrec t hmem
    · obtain rfl : ([] : List Token) = toks := by simpa using h
      intro t ht
      simp at ht

/-- Statement dispatch for a leading IDENTIFIER token: the one-token
lookahead selects function call versus assignment. -/
theorem parse_statement_ident (toks : List Token) (fuel i : Nat) (v : String)
    (h : toks.get? i = some ("IDENTIFIER", v)) :
    parse_statement toks (fuel + 1) i =
      (match toks.get? (i + 1) with
       | some ("LPAREN", _) => parse_function_call toks i
       | _ => parse_assignment toks i) := by
  rw [parse_statement, h]
  simp

/-- A successful `parse_function_call` always returns a FUNCTION_CALL
node. -/
theorem parse_function_call_shape {toks : List Token} {i : Nat} {nd : PyVal} {j : Nat}
    (h : parse_function_call toks i = .ok (nd, j)) :
    ∃ args name, nd = .node "FUNCTION_CALL" args (.pystr name) .pynone := by
  rw [parse_function_call] at h
  obtain ⟨⟨t1, i1⟩, h1, h⟩ := except_bind_eq_ok h
  obtain ⟨⟨t2, i2⟩, h2, h⟩ := except_bind_eq_ok h
  obtain ⟨⟨args, i3⟩, h3, h⟩ := except_bind_eq_ok h
  obtain ⟨⟨t4, i4⟩, h4, h⟩ := except_bind_eq_ok h
  obtain ⟨⟨t5, i5⟩, h5, h⟩ := except_map_eq_ok h
  exact ⟨args, t1.2, congrArg Prod.fst h⟩

/-- A successful `parse_assignment` always returns an ASSIGNMENT node. -/
theorem parse_assignment_shape {toks : List Token} {i : Nat} {nd : PyVal} {j : Nat}
    (h : parse_assignment toks i = .ok (nd, j)) :
    ∃ name v, nd = .node "ASSIGNMENT" .nil
      (.pytuple (.cons (.pystr name) (.cons v .nil))) .pynone := by
  rw [parse_assignment] at h
  obtain ⟨⟨t1, i1⟩, h1, h⟩ := except_bind_eq_ok h
  obtain ⟨⟨t2, i2⟩, h2, h⟩ := except_bind_eq_ok h
  obtain ⟨⟨v1, i3⟩, h3, h⟩ := except_bind_eq_ok h
  obtain ⟨⟨t4, i4⟩, h4, h⟩ := except_map_eq_ok h
  exact ⟨t1.2, v1, congrArg Prod.fst h⟩

/-- Analysing anything that is not a `Node` (in particular a body list)
raises AttributeError. -/
theorem analyze_nonnode (fuel : Nat) (st : SymTable) (xs : PyVals) :
    analyze_node (fuel + 1) st (.pylist xs) = .error .attributeError := by
  rw [analyze_node]
  intro ty children v access h
  simp at h

/-! ## Claims -/

/-- C1 (counterexample).  The claim says that for source texts of valid
tokens separated by whitespace the lexer succeeds with the whitespace
implicitly skipped.  In fact `;` alone lexes to one SEMICOLON token, yet
`; ;` — two valid tokens separated by one space — fails with a lexer
error exactly at the whitespace position 1. -/
theorem C1_counterexample :
    lexS ";" = .ok [("SEMICOLON", ";")] ∧
    lexS "; ;" = .error (.unrecognized 1) ∧
    "; ;".toList.get? 1 = some ' ' ∧ isSpaceChar ' ' = true :=
  ⟨rfl, rfl, rfl, rfl⟩

/-- C1 (amended).  Whitespace between tokens is not skipped: no pattern
of `TOKEN_TYPES` matches at a whitespace character, so whenever the scan
cursor is at a whitespace position the lexer fails there with an
unrecognized-token error.  Whitespace is consumed only inside the
composite keyword patterns. -/
theorem C1_whitespace_never_skipped (input : List Char) (p fuel : Nat) (c : Char)
    (hg : input.get? p = some c) (hs : isSpaceChar c = true) :
    lexerAux input (fuel + 1) p = .error (.unrecognized p) := by
  obtain ⟨hlt, hget⟩ := List.get?_eq_some.mp hg
  have hdrop : input.drop p = c :: input.drop (p + 1) := by
    rw [List.drop_eq_getElem_cons hlt]
    exact congrArg (· :: input.drop (p + 1)) hget
  simp [lexerAux, hlt, hdrop, firstMatch_space _ _ hs]

/-- C1 (witness). -/
theorem C1_witness : lexerAux "; ;".toList 4 1 = .error (.unrecognized 1) :=
  C1_whitespace_never_skipped "; ;".toList 1 3 ' ' rfl rfl

/-- C2 (counterexample).  Lexing `variable x = "hi";` does not yield the
five claimed tokens VARIABLE, IDENTIFIER, EQUALS, STRING, SEMICOLON: the
VARIABLE pattern swallows the whole declaration, producing two tokens
(and the lexer has no EQUALS kind at all). -/
theorem C2_counterexample :
    lexS "variable x = \"hi\";" =
      .ok [("VARIABLE", "variable x = \"hi\""), ("SEMICOLON", ";")] ∧
    (lexS "variable x = \"hi\";").map (List.map Prod.fst) ≠
      .ok ["VARIABLE", "IDENTIFIER", "EQUALS", "STRING", "SEMICOLON"] := by
  refine ⟨rfl, fun h => ?_⟩
  rw [show lexS "variable x = \"hi\";" =
    .ok [("VARIABLE", "variable x = \"hi\""), ("SEMICOLON", ";")] from rfl] at h
  simp [Except.map] at h

/-- C2 (amended).  Lexing `variable x = "hi";` yields exactly the two
tokens VARIABLE (whose lexeme is the whole text `variable x = "hi"`) and
SEMICOLON, and for every input and any ok outcome of the scan loop the
token sequence contains no COMMENT token. -/
theorem C2_lexer_variable_line :
    lexS "variable x = \"hi\";" =
      .ok [("VARIABLE", "variable x = \"hi\""), ("SEMICOLON", ";")] ∧
    ∀ (input : List Char) (fuel p : Nat) (toks : List Token),
      lexerAux input fuel p = .ok toks → ∀ t ∈ toks, t.1 ≠ "COMMENT" :=
  ⟨rfl, fun input => lexerAux_no_comment input⟩

/-- C2 (witness). -/
theorem C2_witness : (("IDENTIFIER", "x") : Token).1 ≠ "COMMENT" :=
  C2_lexer_variable_line.2 "x".toList 2 0 [("IDENTIFIER", "x")] rfl
    ("IDENTIFIER", "x") (List.mem_singleton.mpr rfl)

/-- C3 (counterexample).  The claim says the semantic check never fails
with an undeclared-call error for a call to `say`.  In fact checking the
AST consisting of the single call `say()` fails with exactly that
error. -/
theorem C3_counterexample :
    semantic_analysis (.cons (.node "FUNCTION_CALL" .nil (.pystr "say") .pynone) .nil) =
      .error (.exc "Semantic error: Function not declared") := rfl

/-- C3 (amended).  The semantic check has no built-in exemption for
`say`: a FunctionCall whose callee is `say` fails with the
undeclared-function error whenever no symbol named `say` is in the
symbol table, exactly like any other callee. -/
theorem C3_say_not_builtin (fuel : Nat) (st : SymTable) (args : PyVals) (acc : PyVal)
    (h : tableMem (.pystr "say") st = false) :
    analyze_node (fuel + 1) st (.node "FUNCTION_CALL" args (.pystr "say") acc) =
      .error (.exc "Semantic error: Function not declared") := by
  rw [analyze_node]
  simp [h]

/-- C3 (witness). -/
theorem C3_witness :
    analyze_node 1 [] (.node "FUNCTION_CALL" .nil (.pystr "say") .pynone) =
      .error (.exc "Semantic error: Function not declared") :=
  C3_say_not_builtin 0 [] .nil .pynone rfl

/-- C4 (counterexample).  The claim says evaluating a call to a callee
other than `say` emits an "unknown function" effect.  In fact evaluating
the one-node AST `foo()` produces zero effects (and no error). -/
theorem C4_counterexample :
    run_ast (.cons (.node "FUNCTION_CALL" .nil (.pystr "foo") .pynone) .nil) =
      ([], none) := rfl

/-- C4 (amended).  Evaluating a FunctionCall whose callee is not `say`
produces no effect and no error at all — the unknown call is silently
ignored, not reported — and evaluation of a statement sequence continues
with the siblings exactly as if the call were absent. -/
theorem C4_unknown_call_silent :
    (∀ (args : PyVals) (name acc : PyVal), name ≠ .pystr "say" →
      execute_function_call (.node "FUNCTION_CALL" args name acc) = ([], none)) ∧
    (∀ (fuel : Nat) (args : PyVals) (name acc : PyVal) (rest : PyVals),
      name ≠ .pystr "say" →
      execute_ast (fuel + 2) (.cons (.node "FUNCTION_CALL" args name acc) rest) =
        execute_ast (fuel + 1) rest) := by
  have h1 : ∀ (args : PyVals) (name acc : PyVal), name ≠ .pystr "say" →
      execute_function_call (.node "FUNCTION_CALL" args name acc) = ([], none) := by
    intro args name acc h
    rw [execute_function_call]
    simp [h]
  refine ⟨h1, ?_⟩
  intro fuel args name acc rest h
  rw [execute_ast, execute_node]
  simp [h1 args name acc h]

/-- C4 (witness). -/
theorem C4_witness :
    execute_ast 3 (.cons (.node "FUNCTION_CALL" .nil (.pystr "foo") .pynone) .nil) =
      execute_ast 2 .nil :=
  C4_unknown_call_silent.2 1 .nil (.pystr "foo") .pynone .nil (by decide)

/-- C5 (counterexample).  The claim says a violation-free AST containing
If nodes passes the semantic check.  The source `if"x"{}` lexes and
parses into a single well-formed If node with an empty body, yet
`semantic_analysis` fails on it — with an AttributeError, because the
If branch passes the body *list* to `analyze_node`. -/
theorem C5_counterexample :
    lexer ['i', 'f', '"', 'x', '"', '{', '}'] =
      .ok [("IF", "if"), ("STRING", "\"x\""), ("LBRACE", "\x7b"), ("RBRACE", "\x7d")] ∧
    parse [("IF", "if"), ("STRING", "\"x\""), ("LBRACE", "\x7b"), ("RBRACE", "\x7d")] =
      .ok (.cons (.node "IF"
        (.cons (.node "STRING" .nil (.pystr "\"x\"") .pynone)
          (.cons (.pylist .nil) .nil)) .pynone .pynone) .nil) ∧
    semantic_analysis (.cons (.node "IF"
        (.cons (.node "STRING" .nil (.pystr "\"x\"") .pynone)
          (.cons (.pylist .nil) .nil)) .pynone .pynone) .nil) =
      .error .attributeError :=
  ⟨rfl, rfl, rfl⟩

/-- C5 (amended).  The semantic check walks only the top-level nodes: a
Class or Function declaration only inserts its own name and never
descends into its body (so violations inside those bodies go
undetected), and an If node recurses into its condition but then crashes
with an AttributeError on its body — the body list is passed where a
node is expected — so every AST containing an If node fails check. -/
theorem C5_check_shallow_and_if_crashes :
    (∀ (fuel : Nat) (st : SymTable) (children : PyVals) (v acc : PyVal),
      analyze_node (fuel + 1) st (.node "CLASS" children v acc) =
        (if tableMem v st then .error (.exc "Semantic error: Class already declared")
         else .ok (st ++ [(v, .node "CLASS" children v acc)]))) ∧
    (∀ (fuel : Nat) (st : SymTable) (children : PyVals) (nm : PyVal) (rest : PyVals)
        (acc : PyVal),
      analyze_node (fuel + 1) st
          (.node "FUNCTION" children (.pytuple (.cons nm rest)) acc) =
        (if tableMem nm st then .error (.exc "Semantic error: Function already declared")
         else .ok (st ++ [(nm, .node "FUNCTION" children (.pytuple (.cons nm rest)) acc)]))) ∧
    (∀ (fuel : Nat) (st : SymTable) (cond : PyVal) (body : PyVals) (v acc : PyVal),
      analyze_node (fuel + 2) st
          (.node "IF" (.cons cond (.cons (.pylist body) .nil)) v acc) =
        match analyze_node (fuel + 1) st cond with
        | .error e => .error e
        | .ok _ => .error .attributeError) := by
  refine ⟨?_, ?_, ?_⟩
  · intro fuel st children v acc
    rw [analyze_node]
    simp only [String.reduceEq, reduceIte]
  · intro fuel st children nm rest acc
    rw [analyze_node]
    simp only [String.reduceEq, reduceIte, pySubscript, PyVals.get?]
  · intro fuel st cond body v acc
    rw [analyze_node]
    simp only [String.reduceEq, reduceIte, PyVals.get?]
    cases analyze_node (fuel + 1) st cond with
    | error e => rfl
    | ok st1 => exact analyze_nonnode fuel st1 body

/-- C6 (confirmed).  Evaluating a call whose callee is `say` raises the
arity error exactly when the argument count differs from 1; with exactly
one argument node it succeeds with exactly one saying effect carrying
that argument node's value. -/
theorem C6_say_arity :
    (∀ (args : PyVals) (acc : PyVal),
      ((execute_function_call (.node "FUNCTION_CALL" args (.pystr "say") acc)).2 =
        some (.exc "Error: say function requires exactly one argument") ↔
          args.length ≠ 1)) ∧
    (∀ (ty : String) (ch : PyVals) (v acc2 acc : PyVal),
      execute_function_call (.node "FUNCTION_CALL"
          (.cons (.node ty ch v acc2) .nil) (.pystr "say") acc) =
        ([Effect.saying v], none)) := by
  constructor
  · intro args acc
    rw [execute_function_call]
    simp only [reduceIte]
    cases args with
    | nil => simp [PyVals.length]
    | cons a rest =>
      cases rest with
      | nil =>
        simp only [PyVals.length, PyVals.get?]
        cases a <;> simp [pyValueAttr, PyVals.length]
      | cons b rest2 => simp [PyVals.length]
  · intro ty ch v acc2 acc
    rw [execute_function_call]
    simp [PyVals.length, PyVals.get?, pyValueAttr]

/-- C7 (confirmed).  Evaluation never halts on a Yeet node: evaluating a
sequence that starts with a Yeet carrying message `v` emits the error
effect for `v` and then produces exactly the effects (and the possible
error) of evaluating the remaining sibling statements. -/
theorem C7_yeet_never_halts (fuel : Nat) (children : PyVals) (v acc : PyVal)
    (rest : PyVals) :
    execute_ast (fuel + 2) (.cons (.node "YEET" children v acc) rest) =
      (Effect.errorEffect v :: (execute_ast (fuel + 1) rest).1,
       (execute_ast (fuel + 1) rest).2) := by
  rw [execute_ast, execute_node]
  simp only [String.reduceEq, reduceIte, List.singleton_append]

/-- C8 (counterexample).  The claim says `folder a.b.c;` passes lexing
and parsing with an empty AST.  Lexing indeed gives a FOLDER token and a
SEMICOLON, but parsing fails: after consuming the FOLDER token the
trailing semicolon is an unexpected top-level token. -/
theorem C8_counterexample :
    lexS "folder a.b.c;" = .ok [("FOLDER", "folder a.b.c"), ("SEMICOLON", ";")] ∧
    parse [("FOLDER", "folder a.b.c"), ("SEMICOLON", ";")] =
      .error (.exc "Parser error: Unexpected token") :=
  ⟨rfl, rfl⟩

/-- C8 (amended).  Without the trailing semicolon the claim's behaviour
holds: `folder a.b.c` lexes to a single FOLDER token, parses to an empty
top-level AST, and evaluating that empty AST produces zero effects. -/
theorem C8_folder_no_semicolon :
    lexS "folder a.b.c" = .ok [("FOLDER", "folder a.b.c")] ∧
    parse [("FOLDER", "folder a.b.c")] = .ok .nil ∧
    run_ast .nil = ([], none) :=
  ⟨rfl, rfl, rfl⟩

/-- C9 (confirmed).  A statement whose first token is IDENTIFIER parses
to a FunctionCall node exactly when the next token is LPAREN, and to an
Assignment node exactly otherwise — the one-token lookahead is the sole
disambiguation. -/
theorem C9_identifier_lookahead (toks : List Token) (fuel i : Nat) (v : String)
    (nd : PyVal) (j : Nat) (h1 : toks.get? i = some ("IDENTIFIER", v))
    (h2 : parse_statement toks (fuel + 1) i = .ok (nd, j)) :
    ((∃ args name, nd = .node "FUNCTION_CALL" args (.pystr name) .pynone) ↔
      nextIsLParen toks i = true) ∧
    ((∃ name v1, nd = .node "ASSIGNMENT" .nil
        (.pytuple (.cons (.pystr name) (.cons v1 .nil))) .pynone) ↔
      nextIsLParen toks i = false) := by
  rw [parse_statement_ident toks fuel i v h1] at h2
  split at h2
  · rename_i x heq
    obtain ⟨args, name, rfl⟩ := parse_function_call_shape h2
    have hlp : nextIsLParen toks i = true := by
      rw [nextIsLParen, heq]
      simp
    refine ⟨⟨fun _ => hlp, fun _ => ⟨args, name, rfl⟩⟩, ?_, ?_⟩
    · rintro ⟨name1, v1, hbad⟩
      simp at hbad
    · intro hfalse
      rw [hlp] at hfalse
      simp at hfalse
  · rename_i x hne
    obtain ⟨name, v1, rfl⟩ := parse_assignment_shape h2
    have hlp : nextIsLParen toks i = false := by
      rw [nextIsLParen]
      cases hx : toks.get? (i + 1) with
      | none => rfl
      | some t =>
        by_cases ht : t.1 = "LPAREN"
        · exfalso
          obtain ⟨t1, t2⟩ := t
          simp only at ht
          subst ht
          exact hne t2 hx
        · simp [ht]
    refine ⟨⟨?_, ?_⟩, fun _ => hlp, fun _ => ⟨name, v1, rfl⟩⟩
    · rintro ⟨args, name1, hbad⟩
      simp at hbad
    · intro htrue
      rw [hlp] at htrue
      simp at htrue

/-- C9 (witness). -/
theorem C9_witness :
    ((∃ args name, (PyVal.node "FUNCTION_CALL" .nil (.pystr "say") .pynone) =
        .node "FUNCTION_CALL" args (.pystr name) .pynone) ↔
      nextIsLParen [("IDENTIFIER", "say"), ("LPAREN", "("), ("RPAREN", ")"),
        ("SEMICOLON", ";")] 0 = true) ∧
    ((∃ name v1, (PyVal.node "FUNCTION_CALL" .nil (.pystr "say") .pynone) =
        .node "ASSIGNMENT" .nil
          (.pytuple (.cons (.pystr name) (.cons v1 .nil))) .pynone) ↔
      nextIsLParen [("IDENTIFIER", "say"), ("LPAREN", "("), ("RPAREN", ")"),
        ("SEMICOLON", ";")] 0 = false) :=
  C9_identifier_lookahead
    [("IDENTIFIER", "say"), ("LPAREN", "("), ("RPAREN", ")"), ("SEMICOLON", ";")]
    8 0 "say" (.node "FUNCTION_CALL" .nil (.pystr "say") .pynone) 4 rfl rfl

/-- C10 (counterexample).  The claim says the lexer output never
contains a BOOLEAN or NULL token.  In fact `iftrue` lexes to an IF token
followed by a BOOLEAN token, and `ifnull` to IF followed by NULL: after
the IF pattern consumed `if`, the scan position sits inside a word, the
IDENTIFIER pattern's leading word boundary fails, and the unanchored
BOOLEAN and NULL patterns match. -/
theorem C10_counterexample :
    lexS "iftrue" = .ok [("IF", "if"), ("BOOLEAN", "true")] ∧
    lexS "ifnull" = .ok [("IF", "if"), ("NULL", "null")] :=
  ⟨rfl, rfl⟩

/-- C10 (amended).  At any scan position that is a word boundary (start
of input or after a non-word character) the matching pattern is never
BOOLEAN or NULL — there the words true, false and null match the earlier
IDENTIFIER pattern and stay identifiers, as the source texts `true`,
`false` and `null` show — but at in-word positions BOOLEAN and NULL
tokens are produced, so the claim's universal absence fails. -/
theorem C10_boolean_null_need_word_interior :
    (∀ (prev : Option Char) (cs : List Char) (ty : String) (n : Nat),
      (∀ q, prev = some q → isWordChar q = false) →
      firstMatch prev cs = some (ty, n) → ty ≠ "BOOLEAN" ∧ ty ≠ "NULL") ∧
    lexS "true" = .ok [("IDENTIFIER", "true")] ∧
    lexS "false" = .ok [("IDENTIFIER", "false")] ∧
    lexS "null" = .ok [("IDENTIFIER", "null")] := by
  refine ⟨?_, rfl, rfl, rfl⟩
  intro prev cs ty n hbnd h
  rw [firstMatch] at h
  have hsplit : TOKEN_TYPES prev =
      [("FOLDER", matchFOLDER), ("CLASS", matchCLASS), ("VARIABLE", matchVARIABLE),
       ("FUNCTION", matchFUNCTION), ("RETURN", matchRETURN), ("IF", litS "if"),
       ("NOT", litS "not"), ("ELSE", matchELSE), ("IMPORT", matchIMPORT)] ++
      ("IDENTIFIER", matchIDENTIFIER prev) ::
      [("STRING", matchSTRING), ("COMMENT", matchCOMMENT), ("LPAREN", litC '('),
       ("RPAREN", litC ')'), ("LBRACE", litC '{'), ("RBRACE", litC '}'),
       ("SEMICOLON", litC ';'), ("DOT", litC '.'), ("YEET", litS "yeet"),
       ("ARROW", litS "->"), ("BOOLEAN", matchBOOLEAN), ("NULL", litS "null")] := rfl
  constructor
  · rintro rfl
    obtain ⟨m, hm, hcs⟩ := firstMatchIn_found (l := TOKEN_TYPES prev) h
    have hmB : m = matchBOOLEAN := by
      simp only [TOKEN_TYPES, List.mem_cons, Prod.mk.injEq] at hm
      simp at hm
      exact hm
    subst hmB
    obtain ⟨c, cs', rfl, hc⟩ := matchBOOLEAN_head hcs
    have hid : (matchIDENTIFIER prev (c :: cs')).isSome = true := by
      rw [matchIDENTIFIER_alpha cs' hbnd hc]
      rfl
    rw [hsplit] at h
    have := firstMatchIn_stops hid h
    simp at this
  · rintro rfl
    obtain ⟨m, hm, hcs⟩ := firstMatchIn_found (l := TOKEN_TYPES prev) h
    have hmB : m = litS "null" := by
      simp only [TOKEN_TYPES, List.mem_cons, Prod.mk.injEq] at hm
      simp at hm
      exact hm
    subst hmB
    obtain ⟨cs', rfl⟩ := litL_head (n := n) hcs
    have hid : (matchIDENTIFIER prev ('n' :: cs')).isSome = true := by
      rw [matchIDENTIFIER_alpha cs' hbnd (by decide)]
      rfl
    rw [hsplit] at h
    have := firstMatchIn_stops hid h
    simp at this

/-- C10 (witness). -/
theorem C10_witness :
    ("IDENTIFIER" : String) ≠ "BOOLEAN" ∧ ("IDENTIFIER" : String) ≠ "NULL" :=
  C10_boolean_null_need_word_interior.1 none "true".toList "IDENTIFIER" 4
    (fun q hq => by cases hq) rfl

end UScript
